import Mathlib

/-!
# Verification of the house-pricing CRUD service

Shallow embedding of `src/main.py`: an in-memory list of `House` records
with five operations (paginated/filtered list, get by id, create, update,
delete).  Python floats are modelled as rationals, Python ints as `Int`,
the record store `data_records` as a `List House`, and HTTP 404 responses
as an explicit error value carrying the status code and detail string.
Python list slicing (used for pagination) is modelled with its full
semantics, including the clamping of out-of-range indices.
-/

/-- The `House` record schema (the pydantic `House` model in `src/main.py`).
The `id` field is optional on request bodies but is always overwritten by
the handlers before a record is stored, so it is modelled as a plain `Int`. -/
structure House where
  id : Int
  date : String
  price : Rat
  bedrooms : Rat
  bathrooms : Rat
  sqft_living : Int
  sqft_lot : Int
  floors : Rat
  waterfront : Int
  view : Int
  condition : Int
  sqft_above : Int
  sqft_basement : Int
  yr_built : Int
  yr_renovated : Int
  street : String
  city : String
  statezip : String
  country : String
  deriving DecidableEq, Repr

/-- An HTTP error response: status code plus the `detail` string of the
JSON body (`HTTPException(status_code=..., detail=...)`). -/
structure HError where
  status : Nat
  detail : String
  deriving DecidableEq, Repr

/-- The fixed 404 response raised by `get_house`, `update_house` and
`delete_house`: `HTTPException(status_code=404, detail="House not found")`. -/
def houseNotFound : HError := ⟨404, "House not found"⟩

/-- Python truthiness of an `Optional[str]`: `None` and `""` are falsy
(the `if city:` / `if statezip:` guards in `get_houses`). -/
def strTruthy : Option String → Bool
  | none => false
  | some s => s ≠ ""

/-- Python's `str.lower()`, modelled character by character (structurally
recursive so it evaluates in the kernel, unlike `String.toLower`). -/
def pyLower (s : String) : String :=
  String.mk (s.data.map Char.toLower)

/-- The `if city:` filter step of `get_houses`:
`[d for d in filtered_data if d["city"].lower() == city.lower()]`. -/
def filterCity (city : Option String) (l : List House) : List House :=
  match city with
  | none => l
  | some c => if c = "" then l else l.filter (fun d => pyLower d.city == pyLower c)

/-- The `if statezip:` filter step of `get_houses`. -/
def filterStatezip (statezip : Option String) (l : List House) : List House :=
  match statezip with
  | none => l
  | some z => if z = "" then l else l.filter (fun d => pyLower d.statezip == pyLower z)

/-- The `if price_min is not None:` filter step of `get_houses`:
`[d for d in filtered_data if d["price"] >= price_min]`. -/
def filterPriceMin (price_min : Option Rat) (l : List House) : List House :=
  match price_min with
  | none => l
  | some p => l.filter (fun d => decide (p ≤ d.price))

/-- The `if price_max is not None:` filter step of `get_houses`:
`[d for d in filtered_data if d["price"] <= price_max]`. -/
def filterPriceMax (price_max : Option Rat) (l : List House) : List House :=
  match price_max with
  | none => l
  | some p => l.filter (fun d => decide (d.price ≤ p))

/-- The four filter steps of `get_houses`, applied in source order. -/
def applyFilters (city statezip : Option String) (price_min price_max : Option Rat)
    (l : List House) : List House :=
  filterPriceMax price_max (filterPriceMin price_min (filterStatezip statezip (filterCity city l)))

/-- Python's effective index for a slice bound `i` on a list of length `n`:
negative indices count from the end, and both ends are clamped to `[0, n]`. -/
def pyIndex (n : Nat) (i : Int) : Nat :=
  if i < 0 then ((n : Int) + i).toNat else min i.toNat n

/-- Python list slicing `xs[start:stop]` (step 1). -/
def pySlice {α : Type} (xs : List α) (start stop : Int) : List α :=
  (xs.take (pyIndex xs.length stop)).drop (pyIndex xs.length start)

/-- The `GET /houses` handler `get_houses`: apply the four optional filters
in sequence, then return `filtered_data[start:end]` with
`start = (page - 1) * size` and `end = start + size`. -/
def get_houses (page size : Int) (city statezip : Option String)
    (price_min price_max : Option Rat) (store : List House) : List House :=
  let filtered := applyFilters city statezip price_min price_max store
  let start := (page - 1) * size
  pySlice filtered start (start + size)

/-- Python's `max` over a list of ints: undefined (raises) on `[]`. -/
def listMax : List Int → Option Int
  | [] => none
  | x :: xs => some (xs.foldl max x)

/-- The `POST /houses` handler `create_house`:
`new_id = max([d["id"] for d in data_records]) + 1`, then the body with its
`id` replaced by `new_id` is appended and returned.  On an empty store the
`max` call raises, modelled as `none`. -/
def create_house (store : List House) (house : House) : Option (House × List House) :=
  match listMax (store.map (·.id)) with
  | none => none
  | some m => some ({house with id := m + 1}, store ++ [{house with id := m + 1}])

/-- The `GET /houses/{house_id}` handler `get_house`: first record whose id
matches, else 404. -/
def get_house (store : List House) (house_id : Int) : Except HError House :=
  match store.find? (fun d => d.id == house_id) with
  | some h => Except.ok h
  | none => Except.error houseNotFound

/-- The `PUT /houses/{house_id}` handler `update_house`: replace the first
record whose id matches with the body, forcing `id = house_id`, and return
the stored record; 404 (store untouched) if no record matches.  The result
pairs the HTTP outcome with the store after the request. -/
def update_house (store : List House) (house_id : Int) (updated_house : House) :
    Except HError House × List House :=
  match store with
  | [] => (Except.error houseNotFound, [])
  | d :: rest =>
    if d.id = house_id then
      (Except.ok {updated_house with id := house_id},
       {updated_house with id := house_id} :: rest)
    else
      ((update_house rest house_id updated_house).1,
       d :: (update_house rest house_id updated_house).2)

/-- The `DELETE /houses/{house_id}` handler `delete_house`: remove the first
record whose id matches and return `{"message": "House deleted"}` (modelled
by its message string); 404 (store untouched) if no record matches. -/
def delete_house (store : List House) (house_id : Int) :
    Except HError String × List House :=
  match store with
  | [] => (Except.error houseNotFound, [])
  | d :: rest =>
    if d.id = house_id then
      (Except.ok "House deleted", rest)
    else
      ((delete_house rest house_id).1, d :: (delete_house rest house_id).2)

/-- A concrete house record used by witnesses and counterexamples. -/
def house0 : House :=
  { id := 0, date := "2014-05-02", price := 200000, bedrooms := 3, bathrooms := 2,
    sqft_living := 1500, sqft_lot := 4000, floors := 1, waterfront := 0, view := 0,
    condition := 3, sqft_above := 1500, sqft_basement := 0, yr_built := 1990,
    yr_renovated := 0, street := "1105 Oak St", city := "Austin",
    statezip := "TX 78701", country := "USA" }

/-- A second concrete house record, with id 1. -/
def house1 : House :=
  { house0 with id := 1, price := 400000, city := "Seattle", statezip := "WA 98101" }

/-- `house1` with id 2, as assigned by a create on a store whose max id is 1. -/
def house2 : House := { house1 with id := 2 }

/-- `house0` with a given id, for building concrete stores. -/
def houseWithId (i : Int) : House := { house0 with id := i }

/-- A concrete store of 12 records with ids 0..11, for the pagination witness. -/
def store12 : List House := (List.range 12).map (fun i => houseWithId i)

/-! ## Helper lemmas about the slicing model -/

theorem pyIndex_of_nonneg {n : Nat} {i : Int} (h : 0 ≤ i) : pyIndex n i = min i.toNat n := by
  simp only [pyIndex, if_neg (by omega : ¬ i < 0)]

theorem pySlice_eq_drop_take {α : Type} (xs : List α) (a b : Int) (ha : 0 ≤ a) (hb : 0 ≤ b) :
    pySlice xs a (a + b) = (xs.drop a.toNat).take b.toNat := by
  unfold pySlice
  rw [pyIndex_of_nonneg ha, pyIndex_of_nonneg (by omega),
    (by omega : (a + b).toNat = a.toNat + b.toNat)]
  rcases Nat.le_total a.toNat xs.length with hs | hs
  · rw [Nat.min_eq_left hs, List.drop_take, List.take_eq_take]
    simp only [List.length_drop]
    omega
  · rw [Nat.min_eq_right hs, List.drop_take, List.drop_eq_nil_of_le (Nat.le_refl _),
      List.drop_eq_nil_of_le hs, List.take_nil, List.take_nil]

theorem pySlice_subset {α : Type} (xs : List α) (a b : Int) : pySlice xs a b ⊆ xs :=
  fun _ h => List.take_subset _ _ (List.drop_subset _ _ h)

/-! ## Helper lemmas about `listMax` (Python's `max`) -/

theorem foldl_max_init_le (l : List Int) (a : Int) : a ≤ l.foldl max a := by
  induction l generalizing a with
  | nil => exact le_refl a
  | cons x xs ih => exact le_trans (le_max_left a x) (ih (max a x))

theorem le_foldl_max (l : List Int) (a : Int) : ∀ i ∈ l, i ≤ l.foldl max a := by
  induction l generalizing a with
  | nil => intro i hi; cases hi
  | cons x xs ih =>
    intro i hi
    rcases List.mem_cons.mp hi with rfl | hi
    · exact le_trans (le_max_right a i) (foldl_max_init_le xs (max a i))
    · exact ih (max a x) i hi

theorem foldl_max_mem (l : List Int) (a : Int) : l.foldl max a = a ∨ l.foldl max a ∈ l := by
  induction l generalizing a with
  | nil => exact Or.inl rfl
  | cons x xs ih =>
    rcases ih (max a x) with h | h
    · rcases le_total a x with hax | hax
      · right
        rw [List.foldl_cons, h, max_eq_right hax]
        exact List.mem_cons_self x xs
      · left
        rw [List.foldl_cons, h, max_eq_left hax]
    · right
      exact List.mem_cons_of_mem x h

theorem listMax_spec {l : List Int} {m : Int} (h : listMax l = some m) :
    m ∈ l ∧ ∀ i ∈ l, i ≤ m := by
  cases l with
  | nil => cases h
  | cons x xs =>
    simp only [listMax, Option.some.injEq] at h
    subst h
    refine ⟨?_, ?_⟩
    · rcases foldl_max_mem xs x with h | h
      · rw [h]; exact List.mem_cons_self x xs
      · exact List.mem_cons_of_mem x h
    · intro i hi
      rcases List.mem_cons.mp hi with rfl | hi
      · exact foldl_max_init_le xs i
      · exact le_foldl_max xs x i hi

/-! ## Helper lemmas about `create_house` -/

theorem create_house_success {store : List House} (hne : store ≠ []) (b : House) :
    ∃ m, create_house store b
        = some ({b with id := m + 1}, store ++ [{b with id := m + 1}]) ∧
      (∀ d ∈ store, d.id ≤ m) ∧ (∃ d ∈ store, d.id = m) := by
  cases store with
  | nil => exact absurd rfl hne
  | cons d rest =>
    have hm : listMax ((d :: rest).map (·.id)) = some ((rest.map (·.id)).foldl max d.id) := rfl
    obtain ⟨hmem, hle⟩ := listMax_spec hm
    refine ⟨(rest.map (·.id)).foldl max d.id, ?_, ?_, ?_⟩
    · simp only [create_house, hm]
    · intro e he
      exact hle e.id (List.mem_map_of_mem _ he)
    · obtain ⟨e, he, heq⟩ := List.mem_map.mp hmem
      exact ⟨e, he, heq⟩

theorem create_house_id_gt {store : List House} {b r : House} {store' : List House}
    (hcr : create_house store b = some (r, store')) :
    ∀ e ∈ store, e.id < r.id := by
  unfold create_house at hcr
  cases hmx : listMax (store.map (·.id)) with
  | none => rw [hmx] at hcr; cases hcr
  | some m =>
    rw [hmx] at hcr
    obtain ⟨_, hle⟩ := listMax_spec hmx
    cases hcr
    intro e he
    have := hle e.id (List.mem_map_of_mem _ he)
    simp only
    omega

/-! ## Helper lemmas about `get_house` -/

theorem get_house_cons (d : House) (l : List House) (hid : Int) :
    get_house (d :: l) hid = if d.id = hid then Except.ok d else get_house l hid := by
  by_cases h : d.id = hid
  · simp [get_house, List.find?_cons, h]
  · simp [get_house, List.find?_cons, h]

theorem get_house_eq_error {store : List House} {hid : Int} :
    get_house store hid = Except.error houseNotFound ↔ ∀ d ∈ store, d.id ≠ hid := by
  induction store with
  | nil => simp [get_house]
  | cons d rest ih =>
    rw [get_house_cons]
    by_cases h : d.id = hid
    · simp [h]
    · simp only [if_neg h, ih, List.mem_cons]
      constructor
      · intro hall e he
        rcases he with rfl | he
        · exact h
        · exact hall e he
      · intro hall e he
        exact hall e (Or.inr he)

/-! ## Helper lemmas about `update_house` and `delete_house` -/

theorem update_house_not_found {store : List House} {hid : Int} (b : House)
    (h : ∀ d ∈ store, d.id ≠ hid) :
    update_house store hid b = (Except.error houseNotFound, store) := by
  induction store with
  | nil => rfl
  | cons d rest ih =>
    have hd : d.id ≠ hid := h d (List.mem_cons_self d rest)
    have hrest := ih (fun e he => h e (List.mem_cons_of_mem d he))
    simp [update_house, if_neg hd, hrest]

theorem update_house_found {store : List House} {hid : Int} (b : House)
    (h : ∃ d ∈ store, d.id = hid) :
    (update_house store hid b).1 = Except.ok {b with id := hid} ∧
      get_house (update_house store hid b).2 hid = Except.ok {b with id := hid} ∧
      {b with id := hid} ∈ (update_house store hid b).2 := by
  induction store with
  | nil => obtain ⟨d, hd, _⟩ := h; cases hd
  | cons d rest ih =>
    by_cases hd : d.id = hid
    · refine ⟨by simp [update_house, if_pos hd], ?_, ?_⟩
      · simp only [update_house, if_pos hd]
        rw [get_house_cons, if_pos rfl]
      · simp [update_house, if_pos hd]
    · have hrest : ∃ e ∈ rest, e.id = hid := by
        obtain ⟨e, he, heq⟩ := h
        rcases List.mem_cons.mp he with rfl | he
        · exact absurd heq hd
        · exact ⟨e, he, heq⟩
      obtain ⟨ih1, ih2, ih3⟩ := ih hrest
      refine ⟨by simp [update_house, if_neg hd, ih1], ?_, ?_⟩
      · simp only [update_house, if_neg hd]
        rw [get_house_cons, if_neg hd]
        exact ih2
      · simp only [update_house, if_neg hd]
        exact List.mem_cons_of_mem d ih3

theorem update_house_error_iff {store : List House} {hid : Int} (b : House) :
    (update_house store hid b).1 = Except.error houseNotFound ↔ ∀ d ∈ store, d.id ≠ hid := by
  constructor
  · intro herr
    by_contra hnot
    push_neg at hnot
    obtain ⟨d, hd, heq⟩ := hnot
    have := (update_house_found b ⟨d, hd, heq⟩).1
    rw [this] at herr
    cases herr
  · intro h
    rw [update_house_not_found b h]

theorem delete_house_not_found {store : List House} {hid : Int}
    (h : ∀ d ∈ store, d.id ≠ hid) :
    delete_house store hid = (Except.error houseNotFound, store) := by
  induction store with
  | nil => rfl
  | cons d rest ih =>
    have hd : d.id ≠ hid := h d (List.mem_cons_self d rest)
    have hrest := ih (fun e he => h e (List.mem_cons_of_mem d he))
    simp [delete_house, if_neg hd, hrest]

theorem delete_house_found {store : List House} {hid : Int}
    (h : ∃ d ∈ store, d.id = hid) :
    (delete_house store hid).1 = Except.ok "House deleted" := by
  induction store with
  | nil => obtain ⟨d, hd, _⟩ := h; cases hd
  | cons d rest ih =>
    by_cases hd : d.id = hid
    · simp [delete_house, if_pos hd]
    · have hrest : ∃ e ∈ rest, e.id = hid := by
        obtain ⟨e, he, heq⟩ := h
        rcases List.mem_cons.mp he with rfl | he
        · exact absurd heq hd
        · exact ⟨e, he, heq⟩
      simp [delete_house, if_neg hd, ih hrest]

theorem delete_house_error_iff {store : List House} {hid : Int} :
    (delete_house store hid).1 = Except.error houseNotFound ↔ ∀ d ∈ store, d.id ≠ hid := by
  constructor
  · intro herr
    by_contra hnot
    push_neg at hnot
    obtain ⟨d, hd, heq⟩ := hnot
    have := delete_house_found ⟨d, hd, heq⟩
    rw [this] at herr
    cases herr
  · intro h
    rw [delete_house_not_found h]

theorem delete_house_removes {store : List House} {hid : Int}
    (hnd : (store.map (·.id)).Nodup) :
    ∀ e ∈ (delete_house store hid).2, e.id ≠ hid := by
  induction store with
  | nil => intro e he; cases he
  | cons d rest ih =>
    rw [List.map_cons, List.nodup_cons] at hnd
    by_cases hd : d.id = hid
    · intro e he
      simp only [delete_house, if_pos hd] at he
      intro heq
      have : e.id ∈ rest.map (·.id) := List.mem_map_of_mem (·.id) he
      rw [heq, ← hd] at this
      exact hnd.1 this
    · intro e he
      simp only [delete_house, if_neg hd] at he
      rcases List.mem_cons.mp he with rfl | he
      · exact hd
      · exact ih hnd.2 e he

theorem delete_house_subset {store : List House} {hid : Int} :
    (delete_house store hid).2 ⊆ store := by
  induction store with
  | nil => exact fun _ h => h
  | cons d rest ih =>
    by_cases hd : d.id = hid
    · simp only [delete_house, if_pos hd]
      exact fun e he => List.mem_cons_of_mem d he
    · simp only [delete_house, if_neg hd]
      intro e he
      rcases List.mem_cons.mp he with rfl | he
      · exact List.mem_cons_self e _
      · exact List.mem_cons_of_mem d (ih he)

/-! ## Membership in the filtered sequence -/

theorem mem_filterCity {city : Option String} {l : List House} {h : House}
    (hm : h ∈ filterCity city l) :
    h ∈ l ∧ ∀ c, city = some c → c ≠ "" → pyLower h.city = pyLower c := by
  cases city with
  | none => exact ⟨hm, fun c hc => by cases hc⟩
  | some c =>
    by_cases hc : c = ""
    · subst hc
      simp only [filterCity, if_pos rfl] at hm
      exact ⟨hm, fun c' hc' hne => by cases hc'; exact absurd rfl hne⟩
    · simp only [filterCity, if_neg hc] at hm
      have hmf := List.mem_filter.mp hm
      exact ⟨hmf.1, fun c' hc' _ => by cases hc'; exact beq_iff_eq.mp hmf.2⟩

theorem mem_filterStatezip {statezip : Option String} {l : List House} {h : House}
    (hm : h ∈ filterStatezip statezip l) :
    h ∈ l ∧ ∀ z, statezip = some z → z ≠ "" → pyLower h.statezip = pyLower z := by
  cases statezip with
  | none => exact ⟨hm, fun z hz => by cases hz⟩
  | some z =>
    by_cases hz : z = ""
    · subst hz
      simp only [filterStatezip, if_pos rfl] at hm
      exact ⟨hm, fun z' hz' hne => by cases hz'; exact absurd rfl hne⟩
    · simp only [filterStatezip, if_neg hz] at hm
      have hmf := List.mem_filter.mp hm
      exact ⟨hmf.1, fun z' hz' _ => by cases hz'; exact beq_iff_eq.mp hmf.2⟩

theorem mem_filterPriceMin {pmin : Option Rat} {l : List House} {h : House}
    (hm : h ∈ filterPriceMin pmin l) :
    h ∈ l ∧ ∀ p, pmin = some p → p ≤ h.price := by
  cases pmin with
  | none => exact ⟨hm, fun p hp => by cases hp⟩
  | some p =>
    simp only [filterPriceMin] at hm
    have hmf := List.mem_filter.mp hm
    exact ⟨hmf.1, fun p' hp' => by cases hp'; exact of_decide_eq_true hmf.2⟩

theorem mem_filterPriceMax {pmax : Option Rat} {l : List House} {h : House}
    (hm : h ∈ filterPriceMax pmax l) :
    h ∈ l ∧ ∀ p, pmax = some p → h.price ≤ p := by
  cases pmax with
  | none => exact ⟨hm, fun p hp => by cases hp⟩
  | some p =>
    simp only [filterPriceMax] at hm
    have hmf := List.mem_filter.mp hm
    exact ⟨hmf.1, fun p' hp' => by cases hp'; exact of_decide_eq_true hmf.2⟩

theorem mem_applyFilters {city statezip : Option String} {pmin pmax : Option Rat}
    {l : List House} {h : House} (hm : h ∈ applyFilters city statezip pmin pmax l) :
    h ∈ l ∧
      (∀ c, city = some c → c ≠ "" → pyLower h.city = pyLower c) ∧
      (∀ z, statezip = some z → z ≠ "" → pyLower h.statezip = pyLower z) ∧
      (∀ p, pmin = some p → p ≤ h.price) ∧
      (∀ p, pmax = some p → h.price ≤ p) := by
  obtain ⟨hm, hmax⟩ := mem_filterPriceMax hm
  obtain ⟨hm, hmin⟩ := mem_filterPriceMin hm
  obtain ⟨hm, hsz⟩ := mem_filterStatezip hm
  obtain ⟨hm, hcity⟩ := mem_filterCity hm
  exact ⟨hm, hcity, hsz, hmin, hmax⟩

theorem mem_get_houses {page size : Int} {city statezip : Option String}
    {pmin pmax : Option Rat} {store : List House} {h : House}
    (hm : h ∈ get_houses page size city statezip pmin pmax store) :
    h ∈ applyFilters city statezip pmin pmax store :=
  pySlice_subset _ _ _ hm

example : (delete_house [house0, house1] 1).2 = [house0] := by decide
example : (create_house [house0] house0).map (fun p => p.1.id) = some 1 := by decide
example : get_houses 1 10 (some "seattle") none (some 300000) none [house0, house1] = [house1] := by rfl
example : get_houses 1 10 (some "") none none none [house0, house1] = [house0, house1] := by decide
example : get_houses 2 1 none none none none [house0, house1] = [house1] := by decide
example : get_house [house0] 5 = Except.error houseNotFound := by rfl

/-! ## The claims -/

/-- C1: for every house body `h` and every non-empty store, `create_house`
returns a record whose fields equal `h`'s fields except that `id` is newly
assigned and distinct from every existing id, and a subsequent `get_house`
on the assigned id returns that same record. -/
theorem C1_create_get_roundtrip (store : List House) (h : House) (hne : store ≠ []) :
    ∃ r store', create_house store h = some (r, store') ∧
      r.date = h.date ∧ r.price = h.price ∧ r.bedrooms = h.bedrooms ∧
      r.bathrooms = h.bathrooms ∧ r.sqft_living = h.sqft_living ∧
      r.sqft_lot = h.sqft_lot ∧ r.floors = h.floors ∧ r.waterfront = h.waterfront ∧
      r.view = h.view ∧ r.condition = h.condition ∧ r.sqft_above = h.sqft_above ∧
      r.sqft_basement = h.sqft_basement ∧ r.yr_built = h.yr_built ∧
      r.yr_renovated = h.yr_renovated ∧ r.street = h.street ∧ r.city = h.city ∧
      r.statezip = h.statezip ∧ r.country = h.country ∧
      (∀ d ∈ store, d.id ≠ r.id) ∧
      get_house store' r.id = Except.ok r := by
  obtain ⟨m, hcr, hle, -⟩ := create_house_success hne h
  refine ⟨{h with id := m + 1}, store ++ [{h with id := m + 1}], hcr,
    rfl, rfl, rfl, rfl, rfl, rfl, rfl, rfl, rfl, rfl, rfl, rfl, rfl, rfl, rfl, rfl, rfl, rfl,
    ?_, ?_⟩
  · intro d hd heq
    have hdle := hle d hd
    have heq2 : d.id = m + 1 := heq
    omega
  · unfold get_house
    rw [List.find?_append]
    have h1 : store.find? (fun d => d.id == ({h with id := m + 1} : House).id) = none := by
      rw [List.find?_eq_none]
      intro d hd
      simp only [beq_iff_eq]
      intro heq
      have hdle := hle d hd
      have heq2 : d.id = m + 1 := heq
      omega
    rw [h1]
    simp [List.find?_cons]

/-- C1 witness: the round-trip property at a concrete one-record store. -/
theorem C1_witness :
    [house0] ≠ ([] : List House) ∧
    (∃ r store', create_house [house0] house1 = some (r, store') ∧
      r.date = house1.date ∧ r.price = house1.price ∧ r.bedrooms = house1.bedrooms ∧
      r.bathrooms = house1.bathrooms ∧ r.sqft_living = house1.sqft_living ∧
      r.sqft_lot = house1.sqft_lot ∧ r.floors = house1.floors ∧
      r.waterfront = house1.waterfront ∧ r.view = house1.view ∧
      r.condition = house1.condition ∧ r.sqft_above = house1.sqft_above ∧
      r.sqft_basement = house1.sqft_basement ∧ r.yr_built = house1.yr_built ∧
      r.yr_renovated = house1.yr_renovated ∧ r.street = house1.street ∧
      r.city = house1.city ∧ r.statezip = house1.statezip ∧ r.country = house1.country ∧
      (∀ d ∈ [house0], d.id ≠ r.id) ∧
      get_house store' r.id = Except.ok r) :=
  ⟨by simp, C1_create_get_roundtrip [house0] house1 (by simp)⟩

/-- C8: `create_house` assigns the new record the id `1 + max(existing ids)`
(strictly greater than every existing id and the successor of one of them),
and fails on the empty store rather than returning a record. -/
theorem C8_append_max_plus_one (store : List House) (h : House) :
    create_house [] h = none ∧
    (store ≠ [] → ∃ r store', create_house store h = some (r, store') ∧
      (∀ d ∈ store, d.id < r.id) ∧ (∃ d ∈ store, d.id + 1 = r.id)) := by
  refine ⟨rfl, fun hne => ?_⟩
  obtain ⟨m, hcr, hle, hmem⟩ := create_house_success hne h
  refine ⟨_, _, hcr, ?_, ?_⟩
  · intro d hd
    have hdle := hle d hd
    show d.id < m + 1
    omega
  · obtain ⟨d, hd, heq⟩ := hmem
    exact ⟨d, hd, by show d.id + 1 = m + 1; omega⟩

/-- C8 witness: on the store `[house0]` (max id 0) the new id is 1, and on
the empty store `create_house` fails. -/
theorem C8_witness :
    create_house [] house1 = none ∧
    (∃ r store', create_house [house0] house1 = some (r, store') ∧
      (∀ d ∈ [house0], d.id < r.id) ∧ (∃ d ∈ [house0], d.id + 1 = r.id)) :=
  ⟨(C8_append_max_plus_one [house0] house1).1,
   (C8_append_max_plus_one [house0] house1).2 (by simp)⟩

/-- C2 counterexample: in the store `[house0, house1]` (ids 0 and 1), delete
id 1 — the record holding the maximum id — and then create: the new record
is assigned id 1 again, so the deleted id IS reused, contradicting the claim
that deleted ids are never reused. -/
theorem C2_counterexample :
    (delete_house [house0, house1] 1).1 = Except.ok "House deleted" ∧
    (create_house (delete_house [house0, house1] 1).2 house1).map (fun p => p.1.id)
      = some 1 :=
  ⟨rfl, rfl⟩

/-- C2 as amended: a later `create_house` always assigns an id strictly
greater than every id remaining after the deletion, so a deleted id `d` is
never reused while some remaining record has id `≥ d`; but when the deleted
record held the strict maximum, the next create reassigns exactly that
freed id (as the counterexample shows). -/
theorem C2_no_reuse_below_max (store : List House) (d : Int) (h r : House)
    (store₂ : List House)
    (hcr : create_house (delete_house store d).2 h = some (r, store₂)) :
    (∀ e ∈ (delete_house store d).2, e.id < r.id) ∧
    ((∃ e ∈ (delete_house store d).2, d ≤ e.id) → r.id ≠ d) := by
  refine ⟨create_house_id_gt hcr, ?_⟩
  rintro ⟨e, he, hde⟩ heq
  have := create_house_id_gt hcr e he
  omega

/-- C2 witness: deleting id 0 from `[house0, house1]` leaves a record with
id 1 ≥ 0, and the next create assigns id 2, which is neither 0 nor any
remaining id. -/
theorem C2_witness :
    (∀ e ∈ (delete_house [house0, house1] 0).2, e.id < house2.id) ∧
    ((∃ e ∈ (delete_house [house0, house1] 0).2, (0 : Int) ≤ e.id) → house2.id ≠ 0) :=
  C2_no_reuse_below_max [house0, house1] 0 house1 house2
    ((delete_house [house0, house1] 0).2 ++ [house2]) (by rfl)

/-- C3: with page > 0 and 0 ≤ size ≤ 100, `get_houses` returns exactly the
slice `[(page-1)*size : (page-1)*size + size]` of the filtered sequence
(characterised independently as drop-then-take), returns `[]` rather than an
error when the slice starts beyond the filtered sequence, and in particular
for size 10 and page 1 with no filters it returns the records at positions
0 through 9 (length 10 whenever the store has at least 10 records). -/
theorem C3_pagination (page size : Int) (city statezip : Option String)
    (pmin pmax : Option Rat) (store : List House)
    (hpage : 0 < page) (hsize0 : 0 ≤ size) (_hsize : size ≤ 100) :
    get_houses page size city statezip pmin pmax store
      = ((applyFilters city statezip pmin pmax store).drop
          ((page - 1) * size).toNat).take size.toNat ∧
    ((applyFilters city statezip pmin pmax store).length ≤ ((page - 1) * size).toNat →
      get_houses page size city statezip pmin pmax store = []) ∧
    get_houses 1 10 none none none none store = store.take 10 ∧
    (10 ≤ store.length → (get_houses 1 10 none none none none store).length = 10) := by
  have hstart : (0 : Int) ≤ (page - 1) * size := mul_nonneg (by omega) hsize0
  have h1 : get_houses page size city statezip pmin pmax store
      = ((applyFilters city statezip pmin pmax store).drop
          ((page - 1) * size).toNat).take size.toNat :=
    pySlice_eq_drop_take _ _ _ hstart hsize0
  have h3 : get_houses 1 10 none none none none store = store.take 10 := by
    have h0 := pySlice_eq_drop_take store 0 10 (by omega) (by omega)
    show pySlice store 0 (0 + 10) = store.take 10
    rw [h0]
    rfl
  refine ⟨h1, ?_, h3, ?_⟩
  · intro hlen
    rw [h1, List.drop_eq_nil_of_le hlen, List.take_nil]
  · intro hlen
    rw [h3, List.length_take]
    omega

/-- C3 witness: the pagination facts at page 1, size 10 on the 12-record
store. -/
theorem C3_witness :
    (0 : Int) < 1 ∧ (0 : Int) ≤ 10 ∧ (10 : Int) ≤ 100 ∧
    (get_houses 1 10 none none none none store12
        = ((applyFilters none none none none store12).drop
            (((1 : Int) - 1) * 10).toNat).take (10 : Int).toNat ∧
      ((applyFilters none none none none store12).length ≤ (((1 : Int) - 1) * 10).toNat →
        get_houses 1 10 none none none none store12 = []) ∧
      get_houses 1 10 none none none none store12 = store12.take 10 ∧
      (10 ≤ store12.length → (get_houses 1 10 none none none none store12).length = 10)) :=
  ⟨by norm_num, by norm_num, by norm_num,
   C3_pagination 1 10 none none none none store12 (by norm_num) (by norm_num) (by norm_num)⟩

/-- C4: every record returned by `get_houses` lies in the store and satisfies
each effectively supplied filter conjunctively: case-insensitive equality on
city and statezip, and the inclusive range on price_min/price_max. -/
theorem C4_filter_conjunction (page size : Int) (city statezip : Option String)
    (pmin pmax : Option Rat) (store : List House) (h : House)
    (hm : h ∈ get_houses page size city statezip pmin pmax store) :
    (∀ c, city = some c → c ≠ "" → pyLower h.city = pyLower c) ∧
    (∀ z, statezip = some z → z ≠ "" → pyLower h.statezip = pyLower z) ∧
    (∀ p, pmin = some p → p ≤ h.price) ∧
    (∀ p, pmax = some p → h.price ≤ p) ∧ h ∈ store := by
  obtain ⟨h1, h2, h3, h4, h5⟩ := mem_applyFilters (mem_get_houses hm)
  exact ⟨h2, h3, h4, h5, h1⟩

/-- C4 witness: `List(city="Seattle", price_min=300000)` on
`[house0, house1]` returns `house1`, whose city is "Seattle"
(case-insensitively) and whose price is at least 300000. -/
theorem C4_witness :
    house1 ∈ get_houses 1 10 (some "Seattle") none (some 300000) none [house0, house1] ∧
    ((∀ c, (some "Seattle" : Option String) = some c → c ≠ "" →
        pyLower house1.city = pyLower c) ∧
      (∀ z, (none : Option String) = some z → z ≠ "" →
        pyLower house1.statezip = pyLower z) ∧
      (∀ p, (some (300000 : Rat)) = some p → p ≤ house1.price) ∧
      (∀ p, (none : Option Rat) = some p → house1.price ≤ p) ∧
      house1 ∈ [house0, house1]) := by
  have hmem : house1 ∈ get_houses 1 10 (some "Seattle") none (some 300000) none
      [house0, house1] := by
    have heq : get_houses 1 10 (some "Seattle") none (some 300000) none [house0, house1]
        = [house1] := by rfl
    rw [heq]
    exact List.mem_singleton.mpr rfl
  exact ⟨hmem,
    C4_filter_conjunction 1 10 (some "Seattle") none (some 300000) none
      [house0, house1] house1 hmem⟩

/-- C5: for every id present in the store, update stores the record whose id
is the path-supplied id regardless of the body's id and whose every other
field equals the corresponding body field; the returned record equals the
stored record (a subsequent get on the id returns exactly it). -/
theorem C5_update_forces_path_id (store : List House) (hid : Int) (b : House)
    (hpresent : ∃ d ∈ store, d.id = hid) :
    (update_house store hid b).1 = Except.ok {b with id := hid} ∧
    ({b with id := hid} : House).id = hid ∧
    ({b with id := hid} : House).date = b.date ∧
    ({b with id := hid} : House).price = b.price ∧
    ({b with id := hid} : House).bedrooms = b.bedrooms ∧
    ({b with id := hid} : House).bathrooms = b.bathrooms ∧
    ({b with id := hid} : House).sqft_living = b.sqft_living ∧
    ({b with id := hid} : House).sqft_lot = b.sqft_lot ∧
    ({b with id := hid} : House).floors = b.floors ∧
    ({b with id := hid} : House).waterfront = b.waterfront ∧
    ({b with id := hid} : House).view = b.view ∧
    ({b with id := hid} : House).condition = b.condition ∧
    ({b with id := hid} : House).sqft_above = b.sqft_above ∧
    ({b with id := hid} : House).sqft_basement = b.sqft_basement ∧
    ({b with id := hid} : House).yr_built = b.yr_built ∧
    ({b with id := hid} : House).yr_renovated = b.yr_renovated ∧
    ({b with id := hid} : House).street = b.street ∧
    ({b with id := hid} : House).city = b.city ∧
    ({b with id := hid} : House).statezip = b.statezip ∧
    ({b with id := hid} : House).country = b.country ∧
    get_house (update_house store hid b).2 hid = Except.ok {b with id := hid} ∧
    {b with id := hid} ∈ (update_house store hid b).2 := by
  obtain ⟨h1, h2, h3⟩ := update_house_found b hpresent
  exact ⟨h1, rfl, rfl, rfl, rfl, rfl, rfl, rfl, rfl, rfl, rfl, rfl, rfl, rfl, rfl, rfl,
    rfl, rfl, rfl, rfl, h2, h3⟩

/-- C5 witness: `PUT` of the `house1` body onto id 0 in `[house0, house1]`
stores the body's fields under id 0 and returns that record. -/
theorem C5_witness :
    (∃ d ∈ [house0, house1], d.id = 0) ∧
    ((update_house [house0, house1] 0 house1).1 = Except.ok {house1 with id := 0} ∧
      ({house1 with id := 0} : House).id = 0 ∧
      ({house1 with id := 0} : House).date = house1.date ∧
      ({house1 with id := 0} : House).price = house1.price ∧
      ({house1 with id := 0} : House).bedrooms = house1.bedrooms ∧
      ({house1 with id := 0} : House).bathrooms = house1.bathrooms ∧
      ({house1 with id := 0} : House).sqft_living = house1.sqft_living ∧
      ({house1 with id := 0} : House).sqft_lot = house1.sqft_lot ∧
      ({house1 with id := 0} : House).floors = house1.floors ∧
      ({house1 with id := 0} : House).waterfront = house1.waterfront ∧
      ({house1 with id := 0} : House).view = house1.view ∧
      ({house1 with id := 0} : House).condition = house1.condition ∧
      ({house1 with id := 0} : House).sqft_above = house1.sqft_above ∧
      ({house1 with id := 0} : House).sqft_basement = house1.sqft_basement ∧
      ({house1 with id := 0} : House).yr_built = house1.yr_built ∧
      ({house1 with id := 0} : House).yr_renovated = house1.yr_renovated ∧
      ({house1 with id := 0} : House).street = house1.street ∧
      ({house1 with id := 0} : House).city = house1.city ∧
      ({house1 with id := 0} : House).statezip = house1.statezip ∧
      ({house1 with id := 0} : House).country = house1.country ∧
      get_house (update_house [house0, house1] 0 house1).2 0
        = Except.ok {house1 with id := 0} ∧
      {house1 with id := 0} ∈ (update_house [house0, house1] 0 house1).2) :=
  ⟨⟨house0, List.mem_cons_self house0 [house1], rfl⟩,
   C5_update_forces_path_id [house0, house1] 0 house1
     ⟨house0, List.mem_cons_self house0 [house1], rfl⟩⟩

/-- C6: get, update and delete answer the fixed 404 error (status 404,
detail "House not found") exactly when no record in the store has the
requested id, and in that case the store is left unchanged. -/
theorem C6_not_found_iff (store : List House) (hid : Int) (b : House) :
    (get_house store hid = Except.error houseNotFound ↔ ∀ d ∈ store, d.id ≠ hid) ∧
    ((update_house store hid b).1 = Except.error houseNotFound ↔
      ∀ d ∈ store, d.id ≠ hid) ∧
    ((delete_house store hid).1 = Except.error houseNotFound ↔
      ∀ d ∈ store, d.id ≠ hid) ∧
    houseNotFound.status = 404 ∧ houseNotFound.detail = "House not found" ∧
    ((∀ d ∈ store, d.id ≠ hid) →
      (update_house store hid b).2 = store ∧ (delete_house store hid).2 = store) := by
  refine ⟨get_house_eq_error, update_house_error_iff b, delete_house_error_iff,
    rfl, rfl, ?_⟩
  intro habs
  exact ⟨by rw [update_house_not_found b habs], by rw [delete_house_not_found habs]⟩

/-- C6 witness: id 99 is absent from `[house0]`; all three operations answer
the fixed 404 and the store is untouched. -/
theorem C6_witness :
    get_house [house0] 99 = Except.error houseNotFound ∧
    (update_house [house0] 99 house1).1 = Except.error houseNotFound ∧
    (delete_house [house0] 99).1 = Except.error houseNotFound ∧
    (update_house [house0] 99 house1).2 = [house0] ∧
    (delete_house [house0] 99).2 = [house0] := by
  have habs : ∀ d ∈ [house0], d.id ≠ (99 : Int) := by decide
  obtain ⟨h1, h2, h3, -, -, h6⟩ := C6_not_found_iff [house0] 99 house1
  exact ⟨h1.mpr habs, h2.mpr habs, h3.mpr habs, (h6 habs).1, (h6 habs).2⟩

/-- C7: after a successful delete of an id from a store with pairwise
distinct ids (the store invariant), a get on that id answers the fixed 404
and no `get_houses` result, for any filters and pagination, contains a
record with that id. -/
theorem C7_delete_then_gone (store : List House) (hid : Int)
    (hnd : (store.map (·.id)).Nodup) (hpresent : ∃ d ∈ store, d.id = hid) :
    (delete_house store hid).1 = Except.ok "House deleted" ∧
    get_house (delete_house store hid).2 hid = Except.error houseNotFound ∧
    ∀ page size city statezip pmin pmax h,
      h ∈ get_houses page size city statezip pmin pmax (delete_house store hid).2 →
        h.id ≠ hid := by
  refine ⟨delete_house_found hpresent, ?_, ?_⟩
  · rw [get_house_eq_error]
    exact delete_house_removes hnd
  · intro page size city sz pmin pmax h hm
    exact delete_house_removes hnd h (mem_applyFilters (mem_get_houses hm)).1

/-- C7 witness: deleting id 1 from `[house0, house1]`. -/
theorem C7_witness :
    ([house0, house1].map (·.id)).Nodup ∧
    ((delete_house [house0, house1] 1).1 = Except.ok "House deleted" ∧
      get_house (delete_house [house0, house1] 1).2 1 = Except.error houseNotFound ∧
      ∀ page size city statezip pmin pmax h,
        h ∈ get_houses page size city statezip pmin pmax
              (delete_house [house0, house1] 1).2 →
          h.id ≠ 1) := by
  have hnd : ([house0, house1].map (·.id)).Nodup := by decide
  exact ⟨hnd, C7_delete_then_gone [house0, house1] 1 hnd ⟨house1, by simp, rfl⟩⟩

/-- C9: update is idempotent: if updating id `hid` with body `b` succeeds,
producing record `r` and store `s1`, then updating again with the same body
yields the same record and leaves the store exactly `s1`. -/
theorem C9_update_idempotent (store : List House) (hid : Int) (b r : House)
    (s1 : List House) (h : update_house store hid b = (Except.ok r, s1)) :
    update_house s1 hid b = (Except.ok r, s1) := by
  induction store generalizing s1 with
  | nil =>
    exact absurd (Prod.ext_iff.mp h).1 (by simp [update_house])
  | cons d rest ih =>
    by_cases hd : d.id = hid
    · simp only [update_house, if_pos hd] at h
      obtain ⟨hr, hs⟩ := Prod.ext_iff.mp h
      have hrr : ({b with id := hid} : House) = r := by
        injection hr
      subst hrr
      subst hs
      simp [update_house]
    · simp only [update_house, if_neg hd] at h
      have hr : (update_house rest hid b).1 = Except.ok r := by
        have hfst := congrArg Prod.fst h
        simpa using hfst
      have hs : s1 = d :: (update_house rest hid b).2 := by
        have hsnd := congrArg Prod.snd h
        exact (by simpa using hsnd : d :: (update_house rest hid b).2 = s1).symm
      subst hs
      have hrest : update_house rest hid b
          = (Except.ok r, (update_house rest hid b).2) := Prod.ext hr rfl
      have ihr := ih _ hrest
      simp [update_house, if_neg hd, ihr]

/-- C9 witness: re-applying the successful update of id 0 with body `house1`
changes nothing. -/
theorem C9_witness :
    update_house [{house1 with id := 0}, house1] 0 house1
      = (Except.ok {house1 with id := 0}, [{house1 with id := 0}, house1]) :=
  C9_update_idempotent [house0, house1] 0 house1 {house1 with id := 0}
    [{house1 with id := 0}, house1] (by rfl)

/-- C10: supplying the city (or statezip) query parameter as the empty
string applies no city (respectively statezip) filter at all: the result is
identical to the query with that parameter absent. -/
theorem C10_empty_string_is_no_filter (page size : Int) (city statezip : Option String)
    (pmin pmax : Option Rat) (store : List House) :
    get_houses page size (some "") statezip pmin pmax store
      = get_houses page size none statezip pmin pmax store ∧
    get_houses page size city (some "") pmin pmax store
      = get_houses page size city none pmin pmax store :=
  ⟨rfl, rfl⟩
